import Mathlib

/-!
Verification of the reconciliation and event-routing core (view `Switch`
node and widget-level raw-event handling) against its specification.

The embedding is shallow: Rust structs become Lean structures, methods
become pure functions, and the `Fn(&mut T) -> &mut bool` accessor closure
becomes an explicit get/set lens (the accessor abstraction the design
notes themselves prescribe).  Geometry scalars (`f64` in the source) are
modelled as rationals, following the specification's stance that geometry
values are opaque copyable values with standard arithmetic.
-/

/-! ## Geometry (kurbo `Point`, `Vec2`, `Rect`) -/

/-- A 2-D point (kurbo `Point`), coordinates as rationals. -/
structure Point where
  x : ℚ
  y : ℚ
  deriving DecidableEq, Repr

/-- A 2-D vector (kurbo `Vec2`). -/
structure Vec2 where
  x : ℚ
  y : ℚ
  deriving DecidableEq, Repr

/-- An axis-aligned rectangle (kurbo `Rect`), by its two corners. -/
structure Rect where
  x0 : ℚ
  y0 : ℚ
  x1 : ℚ
  y1 : ℚ
  deriving DecidableEq, Repr

/-- kurbo `Point::to_vec2`. -/
def Point.to_vec2 (p : Point) : Vec2 := ⟨p.x, p.y⟩

/-- kurbo `Point + Vec2`. -/
def Point.addVec (p : Point) (v : Vec2) : Point := ⟨p.x + v.x, p.y + v.y⟩

/-- kurbo `Point - Vec2`. -/
def Point.subVec (p : Point) (v : Vec2) : Point := ⟨p.x - v.x, p.y - v.y⟩

/-- kurbo `Rect - Vec2`: translate the rectangle by the negated vector. -/
def Rect.subVec (r : Rect) (v : Vec2) : Rect :=
  ⟨r.x0 - v.x, r.y0 - v.y, r.x1 - v.x, r.y1 - v.y⟩

/-- Pointwise sum of two points, used to state the composition law
(offset `A + B`). -/
def Point.addPt (p q : Point) : Point := ⟨p.x + q.x, p.y + q.y⟩

/-! ## `ViewContext` and its translation (src/widget/raw_event.rs) -/

/-- `ViewContext` from src/widget/raw_event.rs: window-space origin,
clip rectangle, and optional pointer position. -/
structure ViewContext where
  window_origin : Point
  clip : Rect
  mouse_position : Option Point
  deriving DecidableEq, Repr

/-- `ViewContext::translate_to` from src/widget/raw_event.rs: advance the
window origin by the child offset, subtract the offset from the clip
rectangle and from the pointer position. -/
def ViewContext.translate_to (self : ViewContext) (new_origin : Point) : ViewContext :=
  let translate := new_origin.to_vec2
  { window_origin := self.window_origin.addVec translate
    clip := self.clip.subVec translate
    mouse_position := self.mouse_position.map (fun p => p.subVec translate) }

/-- C5: translating by `A` and then by `B` yields the same `ViewContext`
(same origin, clip, and optional pointer position) as translating once by
`A + B`; `translate_to` is a pure transform of its input. -/
theorem translate_to_comp (ctx : ViewContext) (A B : Point) :
    (ctx.translate_to A).translate_to B = ctx.translate_to (A.addPt B) := by
  cases ctx with
  | mk o c m =>
    cases o; cases c
    simp only [ViewContext.translate_to, Point.to_vec2, Point.addVec, Rect.subVec,
      Point.addPt, Point.subVec, Option.map_map, ViewContext.mk.injEq,
      Point.mk.injEq, Rect.mk.injEq]
    refine ⟨⟨by ring, by ring⟩, ⟨by ring, by ring, by ring, by ring⟩, ?_⟩
    cases m with
    | none => rfl
    | some p =>
      cases p
      simp [Point.subVec, Function.comp]
      constructor <;> ring

/-- C6: translating a context with origin (10,10) and clip (0,0,50,50) by a
child offset (5,5) yields origin (15,15) and clip (-5,-5,45,45); in general
`translate_to` advances the origin by the offset, subtracts the offset from
the clip rectangle, and subtracts the offset from any pointer position. -/
theorem translate_to_spec :
    (ViewContext.translate_to ⟨⟨10, 10⟩, ⟨0, 0, 50, 50⟩, none⟩ ⟨5, 5⟩
        = ⟨⟨15, 15⟩, ⟨-5, -5, 45, 45⟩, none⟩)
    ∧ ∀ (ctx : ViewContext) (o : Point),
        (ctx.translate_to o).window_origin = ctx.window_origin.addVec o.to_vec2
        ∧ (ctx.translate_to o).clip = ctx.clip.subVec o.to_vec2
        ∧ (ctx.translate_to o).mouse_position
            = ctx.mouse_position.map (fun p => p.subVec o.to_vec2) := by
  refine ⟨?_, fun ctx o => ⟨rfl, rfl, rfl⟩⟩
  norm_num [ViewContext.translate_to, Point.to_vec2, Point.addVec, Rect.subVec]

/-! ## View layer: the `Switch` view node (src/view/switch.rs)

The Rust accessor closure `Box<dyn Fn(&mut T) -> &mut bool + Send>` hands
out a mutable reference to one boolean field of the application state.  A
mutable reference cannot be embedded shallowly; we use the get/set lens
abstraction the specification's design notes prescribe for exactly this
closure ("a get+set pair"): `get` reads the field the closure points at,
`set` writes it back.
-/

/-- The get/set embedding of the accessor closure
`Fn(&mut T) -> &mut bool`. -/
structure Lens (T : Type) where
  get : T → Bool
  set : T → Bool → T

/-- The standard lens laws; they hold of any accessor that hands out a
mutable reference to a fixed field of `T`, as the Rust closure does. -/
structure LawfulLens {T : Type} (L : Lens T) : Prop where
  get_set : ∀ s b, L.get (L.set s b) = b
  set_get : ∀ s, L.set s (L.get s) = s
  set_set : ∀ s a b, L.set (L.set s a) b = L.set s b

/-- View identities (`crate::view::Id`), minted by the allocation context. -/
abbrev ViewId := Nat

/-- Modelled from the spec: the allocation context `Cx` (identity
allocator, §4.1) is not part of the given sources; each `with_new_id`
call mints a fresh identity and runs its body in a nested context whose
`id_path` is extended by that identity. -/
structure Cx where
  path : List ViewId
  counter : Nat

/-- Modelled from the spec: `Cx::id_path` returns the ordered sequence of
identities from the root to the current node. -/
def Cx.id_path (cx : Cx) : List ViewId := cx.path

/-- Modelled from the spec: `Cx::with_new_id` allocates a fresh identity,
runs the body in the nested context, and restores the path. -/
def Cx.with_new_id {α : Type} (cx : Cx) (f : Cx → α) : (ViewId × α) × Cx :=
  let i : ViewId := cx.counter
  let a := f { path := cx.path ++ [i], counter := cx.counter + 1 }
  ((i, a), { path := cx.path, counter := cx.counter + 1 })

/-- Modelled from the spec: change flags are a bit-set with OR as
combination and the empty set as identity (§4.3). -/
structure ChangeFlags where
  bits : Nat
  deriving DecidableEq, Repr

/-- `ChangeFlags::default()`: the empty flag set. -/
def ChangeFlags.default : ChangeFlags := ⟨0⟩

/-- Modelled from the spec: the flag raised when an element's on/off
visual must update (a repaint-class dirty bit, non-empty). -/
def ChangeFlags.PAINT : ChangeFlags := ⟨1⟩

/-- `MessageResult` (crate root): outcome of delivering a message.
Modelled from the spec for the variants beyond `Nop` ("no-op",
"produced an action", "stale"). -/
inductive MessageResult (A : Type) where
  | action : A → MessageResult A
  | nop : MessageResult A
  | stale : MessageResult A
  deriving DecidableEq, Repr

/-- Modelled from the spec: the retained element `crate::widget::Switch`
is not part of the given sources; it stores the id path it was created
with and its rendered on/off state. -/
structure WidgetSwitch where
  id_path : List ViewId
  is_on : Bool

/-- Modelled from the spec: `crate::widget::Switch::new(id_path, is_on)`
constructs an element whose rendered on/off state is the given value. -/
def WidgetSwitch.new (id_path : List ViewId) (is_on : Bool) : WidgetSwitch :=
  { id_path := id_path, is_on := is_on }

/-- Modelled from the spec: `crate::widget::Switch::set_is_on` updates the
element's rendered state and returns the (non-empty) change flag saying
the on/off visual must update. -/
def WidgetSwitch.set_is_on (w : WidgetSwitch) (is_on : Bool) : WidgetSwitch × ChangeFlags :=
  ({ w with is_on := is_on }, ChangeFlags.PAINT)

/-- The `Switch<T>` view node from src/view/switch.rs: a declared `is_on`
value plus the captured accessor. -/
structure Switch (T : Type) where
  is_on : Bool
  callback : Lens T

/-- `Switch::new` from src/view/switch.rs: reads the current value of the
field the accessor selects and stores it as the declared `is_on`. -/
def Switch.new {T : Type} (data : T) (clicked : Lens T) : Switch T :=
  { is_on := clicked.get data, callback := clicked }

/-- The free function `switch` from src/view/switch.rs. -/
def switch {T : Type} (data : T) (clicked : Lens T) : Switch T :=
  Switch.new data clicked

/-- `<Switch as View>::build` from src/view/switch.rs: allocate a fresh
identity and construct the widget with the current id path and the
declared `is_on`. -/
def Switch.build {T : Type} (v : Switch T) (cx : Cx) :
    (ViewId × Unit × WidgetSwitch) × Cx :=
  let ((i, element), cx') := cx.with_new_id (fun cx => WidgetSwitch.new cx.id_path v.is_on)
  ((i, (), element), cx')

/-- `<Switch as View>::rebuild` from src/view/switch.rs: if the previous
view's declared `is_on` differs from this view's, update the element via
`set_is_on`; otherwise return the default (empty) change flags.  The
identity and associated state are taken `&mut` but never written, so the
embedding returns them unchanged. -/
def Switch.rebuild {T : Type} (v : Switch T) (prev : Switch T) (i : ViewId)
    (state : Unit) (element : WidgetSwitch) :
    (ViewId × Unit × WidgetSwitch) × ChangeFlags :=
  if prev.is_on != v.is_on then
    let (element', cf) := element.set_is_on v.is_on
    ((i, state, element'), cf)
  else
    ((i, state, element), ChangeFlags.default)

/-- `<Switch as View>::message` from src/view/switch.rs: the id path and
payload parameters are ignored (`_id_path`, `_message`); the boolean the
accessor selects is negated in place and `MessageResult::Nop` is
returned.  `M` is the type of the boxed payload, `A` the action type. -/
def Switch.message {T M A : Type} (v : Switch T) (_id_path : List ViewId)
    (_message : M) (app_state : T) : T × MessageResult A :=
  (v.callback.set app_state (!(v.callback.get app_state)), MessageResult.nop)

/-! ## Concrete fixtures for witnesses and counterexamples -/

/-- The identity accessor on a bare boolean state. -/
def boolLens : Lens Bool := ⟨fun s => s, fun _ b => b⟩

/-- Accessor selecting the first field of a two-boolean state. -/
def fstLens : Lens (Bool × Bool) := ⟨fun s => s.1, fun s b => (b, s.2)⟩

/-- Accessor selecting the second field of a two-boolean state. -/
def sndLens : Lens (Bool × Bool) := ⟨fun s => s.2, fun s b => (s.1, b)⟩

/-! ## Supporting lemmas: the element/view synchronisation invariant

`build` creates the element with the view's declared `is_on`, and
`rebuild` leaves the element carrying the current view's declared
`is_on` whenever it carried the previous view's.  So along any real
build/rebuild sequence the element's rendered state always equals the
declared value of the view last reconciled against it.
-/

/-- `build` creates the element in sync with the declared value. -/
theorem build_element_in_sync {T : Type} (v : Switch T) (cx : Cx) :
    ((v.build cx).1.2.2).is_on = v.is_on := rfl

/-- `rebuild` preserves the synchronisation invariant. -/
theorem rebuild_element_in_sync {T : Type} (v prev : Switch T) (i : ViewId)
    (st : Unit) (element : WidgetSwitch) (hsync : element.is_on = prev.is_on) :
    ((v.rebuild prev i st element).1.2.2).is_on = v.is_on := by
  cases hp : prev.is_on <;> cases hv : v.is_on <;>
    simp_all [Switch.rebuild, WidgetSwitch.set_is_on]

/-- The single-step behaviour of `Switch::message`, shared by the message
theorems below: the id path and payload are ignored, the accessor's
field is negated, and `Nop` is returned. -/
theorem switch_message_eq {T M A : Type} (v : Switch T) (p : List ViewId)
    (m : M) (s : T) :
    Switch.message (A := A) v p m s
      = (v.callback.set s (!(v.callback.get s)), MessageResult.nop) := rfl

/-! ## Claim theorems for the `Switch` view -/

/-- C1 counterexample: delivering a payload the node cannot recognize
(a bare `PUnit`) along a non-matching identity path `[9]` to a Switch
node over application state `true` does not leave the state unchanged —
the boolean selected by the accessor is mutated (toggled to `false`). -/
theorem switch_message_mutates_counterexample :
    (Switch.message (A := PUnit) ⟨true, boolLens⟩ [9] PUnit.unit true).1 ≠ true := by
  decide

/-- C1 (amended): for every Switch node, every identity path, every
payload of any type, and every application state, `message` does return
the inert no-op result — but it does not leave the application state
unchanged: it unconditionally toggles the boolean field selected by the
node's accessor, whether or not the payload or identity path is
recognized. -/
theorem switch_message_always_nop_and_toggles {T M A : Type} (v : Switch T)
    (p : List ViewId) (m : M) (s : T) :
    (Switch.message (A := A) v p m s).2 = MessageResult.nop
    ∧ (Switch.message (A := A) v p m s).1
        = v.callback.set s (!(v.callback.get s)) :=
  ⟨rfl, rfl⟩

/-- C2: delivering an interaction payload flips the boolean field located
by the node's captured accessor and returns the inert no-op routing
result; every observation of the state independent of that field (any
`f` insensitive to writes through the accessor) is untouched. -/
theorem switch_message_flips_field {T M A B : Type} (v : Switch T)
    (hL : LawfulLens v.callback) (p : List ViewId) (m : M) (s : T)
    (f : T → B) (hf : ∀ s b, f (v.callback.set s b) = f s) :
    v.callback.get (Switch.message (A := A) v p m s).1 = !(v.callback.get s)
    ∧ (Switch.message (A := A) v p m s).2 = MessageResult.nop
    ∧ f (Switch.message (A := A) v p m s).1 = f s :=
  ⟨hL.get_set s (!(v.callback.get s)), rfl, hf s (!(v.callback.get s))⟩

/-- Witness for C2 at a concrete input: state `(false, true)`, accessor
on the first field, observer reading the second field. -/
theorem switch_message_flips_field_witness :
    Lens.get (Switch.mk true fstLens).callback
        (Switch.message (A := PUnit) (Switch.mk true fstLens) [0] PUnit.unit
          (false, true)).1
      = !(Lens.get (Switch.mk true fstLens).callback (false, true))
    ∧ (Switch.message (A := PUnit) (Switch.mk true fstLens) [0] PUnit.unit
        (false, true)).2 = MessageResult.nop
    ∧ (fun s : Bool × Bool => s.2)
        (Switch.message (A := PUnit) (Switch.mk true fstLens) [0] PUnit.unit
          (false, true)).1
      = (fun s : Bool × Bool => s.2) (false, true) :=
  switch_message_flips_field (Switch.mk true fstLens)
    ⟨by decide, by decide, by decide⟩ [0] PUnit.unit (false, true)
    (fun s => s.2) (by decide)

/-- C3: rebuilding against a previous view with the same declared `is_on`
returns the empty change-flag set and performs no mutation on the
retained element, the identity, or the associated state. -/
theorem switch_rebuild_noop {T : Type} (v prev : Switch T) (i : ViewId)
    (st : Unit) (element : WidgetSwitch) (h : prev.is_on = v.is_on) :
    v.rebuild prev i st element = ((i, st, element), ChangeFlags.default) := by
  simp [Switch.rebuild, h]

/-- Witness for C3 at a concrete input: both views declare `true`. -/
theorem switch_rebuild_noop_witness :
    Switch.rebuild (Switch.mk true boolLens) (Switch.mk true boolLens) 0 ()
        (WidgetSwitch.new [0] true)
      = ((0, (), WidgetSwitch.new [0] true), ChangeFlags.default) :=
  switch_rebuild_noop (Switch.mk true boolLens) (Switch.mk true boolLens) 0 ()
    (WidgetSwitch.new [0] true) rfl

/-- C4: when the element carries the previous view's declared value (the
invariant `build`/`rebuild` maintain) and the new declared `is_on`
differs from the element's current displayed value, `rebuild` updates
the element's on/off state to the new declared value and returns a
non-empty change-flag set. -/
theorem switch_rebuild_updates_element {T : Type} (v prev : Switch T)
    (i : ViewId) (st : Unit) (element : WidgetSwitch)
    (hsync : element.is_on = prev.is_on) (hdiff : element.is_on ≠ v.is_on) :
    ((v.rebuild prev i st element).1.2.2).is_on = v.is_on
    ∧ (v.rebuild prev i st element).2 ≠ ChangeFlags.default := by
  cases hp : prev.is_on <;> cases hv : v.is_on <;>
    simp_all [Switch.rebuild, WidgetSwitch.set_is_on, ChangeFlags.PAINT,
      ChangeFlags.default]

/-- Witness for C4 at a concrete input: element displays `false` (in sync
with the previous view), the new view declares `true`. -/
theorem switch_rebuild_updates_element_witness :
    ((Switch.rebuild (Switch.mk true boolLens) (Switch.mk false boolLens) 0 ()
        (WidgetSwitch.new [0] false)).1.2.2).is_on = (Switch.mk true boolLens).is_on
    ∧ (Switch.rebuild (Switch.mk true boolLens) (Switch.mk false boolLens) 0 ()
        (WidgetSwitch.new [0] false)).2 ≠ ChangeFlags.default :=
  switch_rebuild_updates_element (Switch.mk true boolLens)
    (Switch.mk false boolLens) 0 () (WidgetSwitch.new [0] false)
    rfl (by decide)

/-- C7: `Switch::new` stores as its declared `is_on` the current value of
the boolean field the accessor selects, and `build` produces an element
whose rendered on/off state equals that declared value (for every
application state and accessor; in particular an accessor exposing
`false` yields an element rendered off). -/
theorem switch_new_build_spec {T : Type} (data : T) (clicked : Lens T) (cx : Cx) :
    (Switch.new data clicked).is_on = clicked.get data
    ∧ (((Switch.new data clicked).build cx).1.2.2).is_on = clicked.get data :=
  ⟨rfl, rfl⟩

/-- C8: after a rebuild that replaces the accessor (for any previous view,
as long as the element carries the previous view's declared value), the
element's visual state equals the new node's declared `is_on`, and the
next `message` delivery mutates the state through the new node's
accessor: the resulting state is exactly a write through `v.callback`. -/
theorem switch_rebuild_new_accessor {T M A : Type} (v prev : Switch T)
    (i : ViewId) (st : Unit) (element : WidgetSwitch)
    (hsync : element.is_on = prev.is_on) (p : List ViewId) (m : M) (s : T) :
    ((v.rebuild prev i st element).1.2.2).is_on = v.is_on
    ∧ (Switch.message (A := A) v p m s).1
        = v.callback.set s (!(v.callback.get s)) :=
  ⟨rebuild_element_in_sync v prev i st element hsync, rfl⟩

/-- Witness for C8 at a concrete input: the previous view observes the
first field, the new view observes the second; after the rebuild the
element displays the new declared value, and the message toggles the
second field (the first is untouched: the state goes from `(false, false)`
to `(false, true)`). -/
theorem switch_rebuild_new_accessor_witness :
    ((Switch.rebuild (Switch.mk true sndLens) (Switch.mk false fstLens) 0 ()
        (WidgetSwitch.new [0] false)).1.2.2).is_on = (Switch.mk true sndLens).is_on
    ∧ (Switch.message (A := PUnit) (Switch.mk true sndLens) [0] PUnit.unit
        (false, false)).1
      = Lens.set (Switch.mk true sndLens).callback (false, false)
          (!(Lens.get (Switch.mk true sndLens).callback (false, false))) :=
  switch_rebuild_new_accessor (Switch.mk true sndLens) (Switch.mk false fstLens)
    0 () (WidgetSwitch.new [0] false) rfl [0] PUnit.unit (false, false)

/-- C9: delivering a message twice in succession restores the application
state: with a lawful accessor, the double toggle is an involution, so
both the full state and in particular the boolean field selected by the
accessor return to their original values. -/
theorem switch_message_involution {T M A : Type} (v : Switch T)
    (hL : LawfulLens v.callback) (p q : List ViewId) (m n : M) (s : T) :
    (Switch.message (A := A) v q n
        (Switch.message (A := A) v p m s).1).1 = s
    ∧ v.callback.get (Switch.message (A := A) v q n
        (Switch.message (A := A) v p m s).1).1 = v.callback.get s := by
  have h : (Switch.message (A := A) v q n
      (Switch.message (A := A) v p m s).1).1 = s := by
    simp [Switch.message, hL.get_set, hL.set_set, hL.set_get]
  exact ⟨h, by rw [h]⟩

/-- Witness for C9 at a concrete input: bare boolean state `true` with the
identity accessor; two deliveries restore the state. -/
theorem switch_message_involution_witness :
    (Switch.message (A := PUnit) (Switch.mk true boolLens) [1] PUnit.unit
        (Switch.message (A := PUnit) (Switch.mk true boolLens) [0] PUnit.unit
          true).1).1 = true
    ∧ Lens.get (Switch.mk true boolLens).callback
        (Switch.message (A := PUnit) (Switch.mk true boolLens) [1] PUnit.unit
          (Switch.message (A := PUnit) (Switch.mk true boolLens) [0] PUnit.unit
            true).1).1
      = Lens.get (Switch.mk true boolLens).callback true :=
  switch_message_involution (Switch.mk true boolLens)
    ⟨by decide, by decide, by decide⟩ [0] [1] PUnit.unit PUnit.unit true

/-! ## Widget-level mouse events (src/widget/raw_event.rs)

The platform types `MouseButtons`, `Modifiers` and `MouseButton` come
from the windowing backend and are consumed as opaque value data; they
are modelled with minimal stand-ins (a bit-set for the button/modifier
sets, an enumeration for the single button).  `count` is a `u8` in the
source; it is only ever copied here, so it is modelled as a natural
number.
-/

/-- Stand-in for the platform's opaque set of held mouse buttons. -/
structure MouseButtons where
  bits : Nat
  deriving DecidableEq, Repr

/-- Stand-in for the platform's opaque set of keyboard modifiers. -/
structure Modifiers where
  bits : Nat
  deriving DecidableEq, Repr

/-- The platform's mouse-button enumeration. -/
inductive MouseButton where
  | none | left | right | middle | x1 | x2
  deriving DecidableEq, Repr

/-- The platform (`glazier`) mouse event, with the fields the source's
`From` conversion destructures: `pos`, `buttons`, `mods`, `count`,
`focus`, `button`, `wheel_delta`. -/
structure GlazierMouseEvent where
  pos : Point
  buttons : MouseButtons
  mods : Modifiers
  count : Nat
  focus : Bool
  button : MouseButton
  wheel_delta : Vec2

/-- `MouseEvent` from src/widget/raw_event.rs: the widget-level mouse
event, carrying both a receiver-local and a window-space position. -/
structure MouseEvent where
  pos : Point
  window_pos : Point
  buttons : MouseButtons
  mods : Modifiers
  count : Nat
  focus : Bool
  button : MouseButton
  wheel_delta : Vec2

/-- The `From<&glazier::MouseEvent> for MouseEvent` conversion from
src/widget/raw_event.rs: both positions are set to the source's `pos`,
every other field is copied. -/
def MouseEvent.ofGlazier (src : GlazierMouseEvent) : MouseEvent :=
  { pos := src.pos
    window_pos := src.pos
    buttons := src.buttons
    mods := src.mods
    count := src.count
    focus := src.focus
    button := src.button
    wheel_delta := src.wheel_delta }

/-- C10: for every platform mouse event, the converted widget-level event
has its window-space position equal to its local position, both equal to
the source position, and all remaining fields (`buttons`, `mods`,
`count`, `focus`, `button`, `wheel_delta`) copied unchanged. -/
theorem mouse_event_from_glazier_spec (src : GlazierMouseEvent) :
    (MouseEvent.ofGlazier src).window_pos = (MouseEvent.ofGlazier src).pos
    ∧ (MouseEvent.ofGlazier src).pos = src.pos
    ∧ (MouseEvent.ofGlazier src).buttons = src.buttons
    ∧ (MouseEvent.ofGlazier src).mods = src.mods
    ∧ (MouseEvent.ofGlazier src).count = src.count
    ∧ (MouseEvent.ofGlazier src).focus = src.focus
    ∧ (MouseEvent.ofGlazier src).button = src.button
    ∧ (MouseEvent.ofGlazier src).wheel_delta = src.wheel_delta :=
  ⟨rfl, rfl, rfl, rfl, rfl, rfl, rfl, rfl⟩
